import Mathlib

/-!
Shallow embedding of the `tusker` tool (src/tusker/__init__.py and
src/tusker/config.py): the ephemeral-database lifecycle (`Tusker.createdb`),
pairwise schema checking (`Tusker.check`), glob-based schema file resolution
(`Tusker._get_schema_files`), orphan cleaning (`Tusker.clean`), SQL file
execution (`execute_sql_file`), and the CLI backend validation
(`ValidateBackends`, `main`).  State (the server's database catalog) is passed
explicitly; Python exceptions are modelled with `Except`.
-/

namespace Tusker

/-- The marker comment attached to every ephemeral database
(`TUSKER_COMMENT`, src/tusker/__init__.py lines 15-19). -/
def TUSKER_COMMENT : String :=
  "CREATED BY TUSKER - If this table is left behind tusker probably " ++
  "crashed and was not able to clean up after itself. Either try " ++
  "running `tusker clean` or remove this database manually."

/-- A row of the administrative catalog (`pg_database` joined with its shared
description from `pg_shdescription`): a database name together with its
optional shared description. -/
structure DB where
  name : String
  description : Option String
deriving DecidableEq, Repr

/-- Statements issued over the administrative (autocommit) connection. -/
inductive AdminOp where
  | createDatabase : String → AdminOp
  | commentOnDatabase : String → String → AdminOp
  | dropDatabase : String → AdminOp
deriving DecidableEq, Repr

/-- A Python exception: its message together with the messages of its
`__context__` chain (most recent first). -/
structure PyExc where
  msg : String
  context : List String
deriving DecidableEq, Repr

/-- Python semantics of raising exception `new` while exception `current` is
being handled (for example from inside a `finally` block): the new exception
propagates, and the current one becomes the new one's `__context__`. -/
def pyRaiseDuring (new : PyExc) (current : Option PyExc) : PyExc :=
  match current with
  | none => new
  | some a => { msg := new.msg, context := a.msg :: a.context }

/-- Ephemeral database name generation, `'{}_{}_{}'.format(dbname, now, suffix)`
(src/tusker/__init__.py lines 86-91). -/
def createDbName (basename : String) (now : Nat) (suffix : String) : String :=
  basename ++ "_" ++ toString now ++ "_" ++ suffix

/-- Effect of `COMMENT ON DATABASE dbname IS comment` on the catalog. -/
def setDescription (catalog : List DB) (dbname comment : String) : List DB :=
  catalog.map (fun db =>
    if db.name = dbname then { db with description := some comment } else db)

/-- Effect of `DROP DATABASE dbname` on the catalog. -/
def dropDb (catalog : List DB) (dbname : String) : List DB :=
  catalog.filter (fun db => db.name != dbname)

/-- The exception currently being handled, given the body's outcome. -/
def errOf : Except PyExc Unit → Option PyExc
  | Except.ok _ => none
  | Except.error a => some a

/-- Embeds the context manager `Tusker.createdb` (src/tusker/__init__.py lines
83-105): create the uniquely named database, attach the marker comment, run
the caller's body, then — in the `finally` block — issue `DROP DATABASE` no
matter how the body exited.  The body is an arbitrary catalog transformer
that may raise; `dropFailure` is the outcome of the `DROP DATABASE` statement
itself (`none` = it succeeds).  Per Python `try`/`finally` semantics, an
exception raised by the `finally` block propagates in place of the body's
exception, which becomes its `__context__`.  Returns the propagated result,
the trace of statements issued on the administrative connection, and the
final catalog. -/
def createdb (basename : String) (now : Nat) (suffix : String)
    (body : List DB → Except PyExc Unit × List DB)
    (dropFailure : Option PyExc) (catalog : List DB) :
    Except PyExc Unit × List AdminOp × List DB :=
  let dbname := createDbName basename now suffix
  let afterComment :=
    setDescription (catalog ++ [{ name := dbname, description := none }])
      dbname TUSKER_COMMENT
  let step := body afterComment
  let trace := [AdminOp.createDatabase dbname,
                AdminOp.commentOnDatabase dbname TUSKER_COMMENT,
                AdminOp.dropDatabase dbname]
  match dropFailure with
  | none => (step.1, trace, dropDb step.2 dbname)
  | some e => (Except.error (pyRaiseDuring e (errOf step.1)), trace, step.2)

/-- The list of consecutive adjacent pairs `(backends[i], backends[i+1])` of a
backend name list, in list order. -/
def adjacentPairs : List String → List (String × String)
  | a :: b :: rest => (a, b) :: adjacentPairs (b :: rest)
  | _ => []

/-- Embeds the loop of `Tusker.check` (src/tusker/__init__.py lines 150-169):
after all backends are materialized, walk `i` over `range(len(managers)-1)`,
diff `(managers[i], managers[i+1])`, and return the pair's names as soon as a
diff is non-empty.  `diffSql a b` abstracts the migra diff of the two
materialized backends (each backend name materializes deterministically
within one run).  Returns the result together with the trace of the pairs
actually diffed, in order. -/
def checkRun (diffSql : String → String → String) :
    List String → Option (String × String) × List (String × String)
  | a :: b :: rest =>
    if diffSql a b != "" then (some (a, b), [(a, b)])
    else
      let r := checkRun diffSql (b :: rest)
      (r.1, (a, b) :: r.2)
  | _ => (none, [])

/-- Embeds `Tusker.check`: `None` when no adjacent pair differs, otherwise the
first differing adjacent pair's names. -/
def check (diffSql : String → String → String) (backends : List String) :
    Option (String × String) :=
  (checkRun diffSql backends).1

/-- The pairs a short-circuiting left-to-right walk actually visits: every
pair up to and including the first one satisfying `p`. -/
def visitedUpToFirst (p : String × String → Bool) :
    List (String × String) → List (String × String)
  | [] => []
  | q :: rest => if p q then [q] else q :: visitedUpToFirst p rest

/-- Fuel-indexed glob matcher over flat path names: `*` matches any (possibly
empty) character sequence, every other character matches itself.  This models
the Python `glob` collaborator restricted to the pattern forms the repository
uses on a flat directory.  The fuel only bounds recursion depth; it is chosen
large enough in `globMatch` that it never runs out. -/
def globMatchAux : Nat → List Char → List Char → Bool
  | 0, _, _ => false
  | _ + 1, [], [] => true
  | _ + 1, [], _ :: _ => false
  | n + 1, '*' :: ps, [] => globMatchAux n ps []
  | n + 1, '*' :: ps, c :: s =>
    globMatchAux n ps (c :: s) || globMatchAux n ('*' :: ps) s
  | _ + 1, _ :: _, [] => false
  | n + 1, p :: ps, c :: s => p == c && globMatchAux n ps s

/-- Whether `path` matches the glob `pattern`. -/
def globMatch (pattern path : String) : Bool :=
  globMatchAux (pattern.length + path.length + 1) pattern.data path.data

/-- Model of `glob(pattern, recursive=True)` over an explicit filesystem `fs`:
the files matching the pattern, in filesystem listing order (the real `glob`
returns paths in unspecified directory order; the caller sorts them). -/
def globFiles (fs : List String) (pattern : String) : List String :=
  fs.filter (fun f => globMatch pattern f)

/-- Python's `sorted` on a list of strings: a stable sort under the
lexicographic string order (for strings, equal elements are identical, so any
correct sort is extensionally `sorted`). -/
def sortStrings (l : List String) : List String :=
  l.insertionSort (· ≤ ·)

/-- Embeds `Tusker._get_schema_files` (src/tusker/__init__.py lines 190-192),
identical in shape to `_get_migration_files` (lines 195-197): for each
configured pattern in declared order, `yield from sorted(glob(pattern,
recursive=True))`. -/
def getSchemaFiles (fs : List String) (patterns : List String) : List String :=
  patterns.flatMap (fun pattern => sortStrings (globFiles fs pattern))

/-- Identifier quoting as performed by psycopg2's `sql.Identifier`: wrap in
double quotes, doubling any embedded double quote. -/
def quoteIdent (s : String) : String :=
  "\"" ++ s.replace "\"" "\"\"" ++ "\""

/-- The `DROP DATABASE` statements issued by `Tusker.clean`
(src/tusker/__init__.py lines 171-188): one per catalog row whose shared
description equals `TUSKER_COMMENT` exactly, each formatted with
`sql.Identifier` quoting. -/
def cleanStatements (catalog : List DB) : List String :=
  (catalog.filter (fun db => db.description == some TUSKER_COMMENT)).map
    (fun db => "DROP DATABASE " ++ quoteIdent db.name)

/-- The catalog after `Tusker.clean`: every database selected by the marker
query has been dropped, in order. -/
def cleanCatalog (catalog : List DB) : List DB :=
  ((catalog.filter (fun db => db.description == some TUSKER_COMMENT)).map
    DB.name).foldl dropDb catalog

/-- Characters stripped by Python's `str.strip()` (the ASCII whitespace
characters; the SQL files at issue are ASCII). -/
def isPySpace (c : Char) : Bool :=
  c == ' ' || c == '\t' || c == '\n' || c == '\r' || c == '\x0b' || c == '\x0c'

/-- Python's `str.strip()`: remove leading and trailing whitespace. -/
def pyStrip (s : String) : String :=
  String.mk (((s.data.dropWhile isPySpace).reverse.dropWhile isPySpace).reverse)

/-- Python's `sql.replace('%', '%%')` (src/tusker/__init__.py line 43). -/
def escapePercents (s : String) : String :=
  String.mk ((s.data.map (fun c => if c = '%' then ['%', '%'] else [c])).flatten)

/-- The underlying DBAPI driver error (`e.orig`): its class's module, its
class name, and `str(orig)`. -/
structure DriverError where
  modName : String
  clsName : String
  message : String
deriving DecidableEq, Repr

/-- A `sqlalchemy.exc.SQLAlchemyError`: the optional underlying driver error
and the fallback `str(e)` text. -/
structure SAError where
  orig : Option DriverError
  text : String
deriving DecidableEq, Repr

/-- The `error_text` computed in `execute_sql_file` (src/tusker/__init__.py
lines 47-51): `"(module.class) message"` of the underlying driver error when
present, else `str(e)`. -/
def errorText (e : SAError) : String :=
  match e.orig with
  | some o => "(" ++ o.modName ++ "." ++ o.clsName ++ ") " ++ o.message
  | none => e.text

/-- Embeds `execute_sql_file` (src/tusker/__init__.py lines 36-52): read the
file (`contents`), strip it, return without submitting anything when the
result is empty; otherwise submit the percent-escaped text via
`exec_driver_sql` (abstracted as `execDriver`).  On success, returns the list
of statements submitted; on a driver failure, returns the `ExecuteSqlError`
message naming the file and the driver error. -/
def executeSqlFile (execDriver : String → Except SAError Unit)
    (filename contents : String) : Except String (List String) :=
  let sqlText := pyStrip contents
  if sqlText = "" then Except.ok []
  else
    match execDriver (escapePercents sqlText) with
    | Except.ok _ => Except.ok [escapePercents sqlText]
    | Except.error e =>
      Except.error ("Error executing SQL file " ++ filename ++ ": " ++
        errorText e)

/-- The `BACKEND_CHOICES` constant (src/tusker/__init__.py line 237). -/
def BACKEND_CHOICES : List String := ["migrations", "schema", "database"]

/-- Embeds `ValidateBackends.__call__` (src/tusker/__init__.py lines 240-263):
if `'all'` appears anywhere in the values the whole list is replaced by
`BACKEND_CHOICES` with no further validation; otherwise a list of length at
most one is a usage error, and the first value outside `BACKEND_CHOICES` is a
usage error. -/
def validateBackends (values : List String) : Except String (List String) :=
  if values.contains "all" then Except.ok BACKEND_CHOICES
  else if values.length ≤ 1 then
    Except.error "at least two backends are required to perform the check"
  else
    match values.find? (fun v => !(BACKEND_CHOICES.contains v)) with
    | some v => Except.error ("invalid choice: " ++ v)
    | none => Except.ok values

/-- The `backends` positional of the `check` subcommand (src/tusker/__init__.py
lines 362-375): argparse `nargs` star with default
`['migrations', 'schema']` — with zero command-line values the action is
invoked on the default list, otherwise on the given values. -/
def parseCheckBackends (argStrings : List String) : Except String (List String) :=
  validateBackends (if argStrings.isEmpty then ["migrations", "schema"] else argStrings)

/-- The attribute names present on the parsed `args` namespace for the `diff`
subcommand: argparse derives the destination of a positional from its name
(`'source'`, `'target'`), while `metavar='from'` affects help text only, so
no attribute is ever named `from`. -/
def diffArgsAttrNames : List String :=
  ["command", "verbose", "config", "source", "target", "reverse",
   "create_extensions_only", "safe", "privileges", "func"]

/-- Python's `hasattr` over the modelled attribute set. -/
def pyHasattr (attrs : List String) (name : String) : Bool :=
  attrs.contains name

/-- The guard in `main` (src/tusker/__init__.py lines 382-383):
`hasattr(args, 'from') and hasattr(args, 'target') and args.source ==
args.target`.  When it is true, `parser.error('source and target must not be
identical')` aborts before any database work; when false, execution proceeds
to `args.func` and databases get created. -/
def sameBackendGuard (attrs : List String) (source target : String) : Bool :=
  pyHasattr attrs "from" && pyHasattr attrs "target" && (source == target)

end Tusker

namespace Tusker

/-- Claim C2: for every suffix and every caller body of `createdb` — including
bodies that raise — the `finally` block issues `DROP DATABASE` for the
generated ephemeral database on scope exit, and (the drop itself succeeding)
the ephemeral database is absent from the catalog afterwards. -/
theorem createdb_drop_issued_and_absent (basename : String) (now : Nat)
    (suffix : String) (body : List DB → Except PyExc Unit × List DB)
    (dropFailure : Option PyExc) (catalog : List DB)
    (h : dropFailure = none) :
    AdminOp.dropDatabase (createDbName basename now suffix) ∈
      (createdb basename now suffix body dropFailure catalog).2.1 ∧
    createDbName basename now suffix ∉
      ((createdb basename now suffix body dropFailure catalog).2.2).map DB.name := by
  subst h
  refine ⟨by simp [createdb], ?_⟩
  simp only [createdb, dropDb, List.mem_map, List.mem_filter, bne_iff_ne]
  rintro ⟨db, ⟨_, hne⟩, heq⟩
  exact hne (by simpa using heq)

/-- Witness for C2 at concrete inputs, with a body that raises. -/
theorem createdb_drop_issued_and_absent_witness :
    AdminOp.dropDatabase (createDbName "tusker" 0 "schema") ∈
      (createdb "tusker" 0 "schema"
        (fun cat => (Except.error ⟨"boom", []⟩, cat)) none []).2.1 ∧
    createDbName "tusker" 0 "schema" ∉
      ((createdb "tusker" 0 "schema"
        (fun cat => (Except.error ⟨"boom", []⟩, cat)) none []).2.2).map DB.name :=
  createdb_drop_issued_and_absent "tusker" 0 "schema"
    (fun cat => (Except.error ⟨"boom", []⟩, cat)) none [] rfl

/-- Claim C3, counterexample: when the body of `createdb` raises and the
`DROP DATABASE` in the `finally` block also fails, the propagated exception is
the drop failure — not the caller's original error.  The original error is
only retained as the drop failure's `__context__`. -/
theorem createdb_drop_masks_original_counterexample :
    (createdb "tusker" 0 "schema"
        (fun cat => (Except.error ⟨"body boom", []⟩, cat))
        (some ⟨"drop boom", []⟩) []).1 ≠
      Except.error ⟨"body boom", []⟩ ∧
    (createdb "tusker" 0 "schema"
        (fun cat => (Except.error ⟨"body boom", []⟩, cat))
        (some ⟨"drop boom", []⟩) []).1 =
      Except.error ⟨"drop boom", ["body boom"]⟩ := by
  constructor
  · intro h
    have : ("drop boom" : String) = "body boom" := by
      have h2 := h
      simp only [createdb, pyRaiseDuring, errOf] at h2
      injection h2 with h3
      exact congrArg PyExc.msg h3
    simp at this
  · rfl

/-- Claim C3, amended: when the body raises exception `a` and the cleanup
`DROP DATABASE` fails with exception `e`, `createdb` propagates the drop
failure `e`, with the original error `a` attached as its `__context__` chain;
the original error is not re-raised as the primary exception. -/
theorem createdb_drop_failure_result (basename : String) (now : Nat)
    (suffix : String) (body : List DB → Except PyExc Unit × List DB)
    (e : PyExc) (catalog : List DB) (a : PyExc)
    (h : (body (setDescription
        (catalog ++ [{ name := createDbName basename now suffix,
                       description := none }])
        (createDbName basename now suffix) TUSKER_COMMENT)).1 =
      Except.error a) :
    (createdb basename now suffix body (some e) catalog).1 =
      Except.error ⟨e.msg, a.msg :: a.context⟩ := by
  simp only [createdb, h, errOf, pyRaiseDuring]

/-- Witness for the amended C3 theorem at concrete inputs. -/
theorem createdb_drop_failure_result_witness :
    (createdb "tusker" 7 "migrations"
        (fun cat => (Except.error ⟨"insert failed", []⟩, cat))
        (some ⟨"drop failed", []⟩) []).1 =
      Except.error ⟨"drop failed", ["insert failed"]⟩ :=
  createdb_drop_failure_result "tusker" 7 "migrations"
    (fun cat => (Except.error ⟨"insert failed", []⟩, cat))
    ⟨"drop failed", []⟩ [] ⟨"insert failed", []⟩ rfl

/-- Unfolding of `checkRun` as a first-match search over the adjacent pairs,
recording exactly the pairs visited up to and including the first hit. -/
theorem checkRun_eq (d : String → String → String) :
    ∀ l : List String,
      checkRun d l =
        ((adjacentPairs l).find? (fun p => d p.1 p.2 != ""),
         visitedUpToFirst (fun p => d p.1 p.2 != "") (adjacentPairs l))
  | [] => by simp [checkRun, adjacentPairs, visitedUpToFirst]
  | [a] => by simp [checkRun, adjacentPairs, visitedUpToFirst]
  | a :: b :: rest => by
    by_cases h : (d a b != "") = true
    · simp [checkRun, adjacentPairs, visitedUpToFirst, List.find?_cons, h]
    · have ih := checkRun_eq d (b :: rest)
      simp [checkRun, adjacentPairs, visitedUpToFirst, List.find?_cons, h, ih]

/-- Claim C4: `check` walks the consecutive adjacent pairs of the backend
list in order, returns the names of the first pair whose diff is non-empty,
diffs no pair beyond that one, and returns `none` when no adjacent pair
differs. -/
theorem check_first_differing_pair (diffSql : String → String → String)
    (backends : List String) (_h : 2 ≤ backends.length) :
    check diffSql backends =
      (adjacentPairs backends).find? (fun p => diffSql p.1 p.2 != "") ∧
    (checkRun diffSql backends).2 =
      visitedUpToFirst (fun p => diffSql p.1 p.2 != "") (adjacentPairs backends) ∧
    ((∀ p ∈ adjacentPairs backends, diffSql p.1 p.2 = "") →
      check diffSql backends = none) := by
  have he := checkRun_eq diffSql backends
  refine ⟨?_, ?_, ?_⟩
  · exact congrArg Prod.fst he
  · exact congrArg Prod.snd he
  · intro hall
    rw [check, he]
    exact List.find?_eq_none.mpr (fun p hp => by simp [hall p hp])

/-- Witness for C4: with only the adjacent pair (schema, database) differing,
`check ["migrations", "schema", "database"]` diffs the first two pairs and
returns that pair. -/
theorem check_first_differing_pair_witness :
    check (fun a b => if a = "schema" ∧ b = "database" then "DROP x" else "")
        ["migrations", "schema", "database"] =
      (adjacentPairs ["migrations", "schema", "database"]).find?
        (fun p =>
          (if p.1 = "schema" ∧ p.2 = "database" then "DROP x" else "") != "") ∧
    (checkRun (fun a b => if a = "schema" ∧ b = "database" then "DROP x" else "")
        ["migrations", "schema", "database"]).2 =
      visitedUpToFirst
        (fun p =>
          (if p.1 = "schema" ∧ p.2 = "database" then "DROP x" else "") != "")
        (adjacentPairs ["migrations", "schema", "database"]) ∧
    ((∀ p ∈ adjacentPairs ["migrations", "schema", "database"],
        (if p.1 = "schema" ∧ p.2 = "database" then "DROP x" else "") = "") →
      check (fun a b => if a = "schema" ∧ b = "database" then "DROP x" else "")
        ["migrations", "schema", "database"] = none) :=
  check_first_differing_pair
    (fun a b => if a = "schema" ∧ b = "database" then "DROP x" else "")
    ["migrations", "schema", "database"] (by decide)

/-- Claim C5, counterexample: with a filesystem holding the single file
`a.sql`, the pattern list `["a.sql", "*.sql"]` resolves to `a.sql` twice —
the resolver does not de-duplicate across patterns. -/
theorem schema_files_not_deduplicated :
    getSchemaFiles ["a.sql"] ["a.sql", "*.sql"] = ["a.sql", "a.sql"] ∧
    1 < (getSchemaFiles ["a.sql"] ["a.sql", "*.sql"]).count "a.sql" := by
  constructor
  · rfl
  · decide

/-- Claim C5, amended: each single pattern's resolved matches are
duplicate-free (the glob of one pattern over a duplicate-free filesystem
yields distinct paths), but the resolver concatenates the per-pattern sorted
results without de-duplicating across patterns, so a file matched by several
patterns occurs once per matching pattern. -/
theorem schema_files_per_pattern_nodup (fs patterns : List String)
    (hfs : fs.Nodup) :
    (∀ p ∈ patterns, (sortStrings (globFiles fs p)).Nodup) ∧
    getSchemaFiles fs patterns =
      (patterns.map (fun p => sortStrings (globFiles fs p))).flatten := by
  refine ⟨fun p _ => ?_, rfl⟩
  exact (List.perm_insertionSort _ _).nodup_iff.mpr (hfs.filter _)

/-- Witness for the amended C5 theorem on a concrete two-file filesystem. -/
theorem schema_files_per_pattern_nodup_witness :
    (∀ p ∈ ["a.sql", "*.sql"],
      (sortStrings (globFiles ["b.sql", "a.sql"] p)).Nodup) ∧
    getSchemaFiles ["b.sql", "a.sql"] ["a.sql", "*.sql"] =
      (["a.sql", "*.sql"].map
        (fun p => sortStrings (globFiles ["b.sql", "a.sql"] p))).flatten :=
  schema_files_per_pattern_nodup ["b.sql", "a.sql"] ["a.sql", "*.sql"]
    (by decide)

/-- Claim C6: the resolver expands each pattern in declared order, sorts each
pattern's matches lexically, and concatenates the per-pattern results in
pattern-declaration order (never merge-sorting across patterns); the result
is independent of the filesystem listing order. -/
theorem schema_files_order (fs fsOther : List String) (patterns : List String)
    (h : fs.Perm fsOther) :
    getSchemaFiles fs patterns =
      (patterns.map (fun p => sortStrings (globFiles fs p))).flatten ∧
    (∀ p ∈ patterns, (sortStrings (globFiles fs p)).Sorted (· ≤ ·)) ∧
    getSchemaFiles fs patterns = getSchemaFiles fsOther patterns := by
  refine ⟨rfl, fun p _ => List.sorted_insertionSort _ _, ?_⟩
  unfold getSchemaFiles
  exact congrArg (List.flatMap patterns) (funext (fun p =>
    List.eq_of_perm_of_sorted
      ((List.perm_insertionSort _ _).trans
        ((h.filter _).trans (List.perm_insertionSort _ _).symm))
      (List.sorted_insertionSort _ _) (List.sorted_insertionSort _ _)))

/-- Witness for C6: the files `[b.sql, a.sql]` resolve in lexical order
`[a.sql, b.sql]` for the pattern `*.sql`, identically for the reversed
filesystem listing. -/
theorem schema_files_order_witness :
    getSchemaFiles ["b.sql", "a.sql"] ["*.sql"] =
      (["*.sql"].map
        (fun p => sortStrings (globFiles ["b.sql", "a.sql"] p))).flatten ∧
    (∀ p ∈ ["*.sql"],
      (sortStrings (globFiles ["b.sql", "a.sql"] p)).Sorted (· ≤ ·)) ∧
    getSchemaFiles ["b.sql", "a.sql"] ["*.sql"] =
      getSchemaFiles ["a.sql", "b.sql"] ["*.sql"] :=
  schema_files_order ["b.sql", "a.sql"] ["a.sql", "b.sql"] ["*.sql"]
    (List.Perm.swap "a.sql" "b.sql" [])

/-- Membership in the catalog after a sequence of `DROP DATABASE` statements:
a row survives exactly when it was present and its name is not among the
dropped names. -/
theorem mem_foldl_dropDb (names : List String) :
    ∀ (catalog : List DB) (db : DB),
      db ∈ names.foldl dropDb catalog ↔ db ∈ catalog ∧ db.name ∉ names := by
  induction names with
  | nil => simp
  | cons n ns ih =>
    intro catalog db
    rw [List.foldl_cons, ih]
    simp only [dropDb, List.mem_filter, bne_iff_ne, ne_eq, List.mem_cons]
    tauto

/-- Claim C7: `clean` drops exactly the databases whose shared description
equals the marker string character for character — a similar but non-equal
description survives — and every issued statement formats the database name
with identifier quoting. -/
theorem clean_drops_exactly_marked (catalog : List DB)
    (hnodup : (catalog.map DB.name).Nodup) :
    (∀ db ∈ catalog, db.description = some TUSKER_COMMENT →
      db ∉ cleanCatalog catalog) ∧
    (∀ db ∈ catalog, db.description ≠ some TUSKER_COMMENT →
      db ∈ cleanCatalog catalog) ∧
    (∀ s ∈ cleanStatements catalog, ∃ db ∈ catalog,
      db.description = some TUSKER_COMMENT ∧
      s = "DROP DATABASE " ++ quoteIdent db.name) ∧
    (∀ db ∈ catalog, db.description = some TUSKER_COMMENT →
      "DROP DATABASE " ++ quoteIdent db.name ∈ cleanStatements catalog) := by
  refine ⟨?_, ?_, ?_, ?_⟩
  · intro db hmem hdesc hin
    rw [cleanCatalog, mem_foldl_dropDb] at hin
    exact hin.2 (List.mem_map_of_mem DB.name
      (List.mem_filter.mpr ⟨hmem, by simp [hdesc]⟩))
  · intro db hmem hdesc
    rw [cleanCatalog, mem_foldl_dropDb]
    refine ⟨hmem, fun hin => ?_⟩
    obtain ⟨v, hv, hvname⟩ := List.mem_map.mp hin
    have hvcat := (List.mem_filter.mp hv).1
    have hvdesc : v.description = some TUSKER_COMMENT := by
      have := (List.mem_filter.mp hv).2
      simpa using this
    have : v = db := List.inj_on_of_nodup_map hnodup hvcat hmem hvname
    exact hdesc (this ▸ hvdesc)
  · intro s hs
    obtain ⟨db, hdb, hsdef⟩ := List.mem_map.mp hs
    exact ⟨db, (List.mem_filter.mp hdb).1,
      by simpa using (List.mem_filter.mp hdb).2, hsdef.symm⟩
  · intro db hmem hdesc
    exact List.mem_map_of_mem _ (List.mem_filter.mpr ⟨hmem, by simp [hdesc]⟩)

/-- Witness for C7: a marker-tagged orphan is dropped while a database with a
merely similar description and an untagged database survive. -/
theorem clean_drops_exactly_marked_witness :
    (∀ db ∈ ([⟨"tusker_1_schema", some TUSKER_COMMENT⟩,
              ⟨"prod", some (TUSKER_COMMENT ++ " extra")⟩,
              ⟨"plain", none⟩] : List DB),
      db.description = some TUSKER_COMMENT →
      db ∉ cleanCatalog [⟨"tusker_1_schema", some TUSKER_COMMENT⟩,
              ⟨"prod", some (TUSKER_COMMENT ++ " extra")⟩, ⟨"plain", none⟩]) ∧
    (∀ db ∈ ([⟨"tusker_1_schema", some TUSKER_COMMENT⟩,
              ⟨"prod", some (TUSKER_COMMENT ++ " extra")⟩,
              ⟨"plain", none⟩] : List DB),
      db.description ≠ some TUSKER_COMMENT →
      db ∈ cleanCatalog [⟨"tusker_1_schema", some TUSKER_COMMENT⟩,
              ⟨"prod", some (TUSKER_COMMENT ++ " extra")⟩, ⟨"plain", none⟩]) ∧
    (∀ s ∈ cleanStatements [⟨"tusker_1_schema", some TUSKER_COMMENT⟩,
              ⟨"prod", some (TUSKER_COMMENT ++ " extra")⟩, ⟨"plain", none⟩],
      ∃ db ∈ ([⟨"tusker_1_schema", some TUSKER_COMMENT⟩,
              ⟨"prod", some (TUSKER_COMMENT ++ " extra")⟩,
              ⟨"plain", none⟩] : List DB),
      db.description = some TUSKER_COMMENT ∧
      s = "DROP DATABASE " ++ quoteIdent db.name) ∧
    (∀ db ∈ ([⟨"tusker_1_schema", some TUSKER_COMMENT⟩,
              ⟨"prod", some (TUSKER_COMMENT ++ " extra")⟩,
              ⟨"plain", none⟩] : List DB),
      db.description = some TUSKER_COMMENT →
      "DROP DATABASE " ++ quoteIdent db.name ∈
        cleanStatements [⟨"tusker_1_schema", some TUSKER_COMMENT⟩,
              ⟨"prod", some (TUSKER_COMMENT ++ " extra")⟩, ⟨"plain", none⟩]) :=
  clean_drops_exactly_marked
    [⟨"tusker_1_schema", some TUSKER_COMMENT⟩,
     ⟨"prod", some (TUSKER_COMMENT ++ " extra")⟩, ⟨"plain", none⟩]
    (by decide)

/-- Claim C8: executing a file whose contents are empty or whitespace-only
submits no statement to the database and raises no error, for every driver
behaviour. -/
theorem execute_whitespace_noop (execDriver : String → Except SAError Unit)
    (filename contents : String) (h : contents.data.all isPySpace = true) :
    executeSqlFile execDriver filename contents = Except.ok [] := by
  have h1 : contents.data.dropWhile isPySpace = [] :=
    List.dropWhile_eq_nil_iff.mpr (fun x hx => List.all_eq_true.mp h x hx)
  have hstrip : pyStrip contents = "" := by
    simp [pyStrip, h1]
  simp [executeSqlFile, hstrip]

/-- Witness for C8: a whitespace-only file is a no-op even for a driver that
would fail on any submitted statement. -/
theorem execute_whitespace_noop_witness :
    executeSqlFile (fun _ => Except.error ⟨none, "driver must not be called"⟩)
      "empty.sql" "  \n\t  " = Except.ok [] :=
  execute_whitespace_noop
    (fun _ => Except.error ⟨none, "driver must not be called"⟩)
    "empty.sql" "  \n\t  " (by decide)

/-- Claim C9: when the driver fails with an underlying driver error, the
raised `ExecuteSqlError` message is built from the offending file's name and
the driver error's class and message alone — the file's SQL text never
appears in it (the message is the same whatever the file's contents were). -/
theorem execute_error_names_file_and_driver
    (execDriver : String → Except SAError Unit) (filename contents : String)
    (o : DriverError) (fallback : String)
    (hne : pyStrip contents ≠ "")
    (hfail : execDriver (escapePercents (pyStrip contents)) =
      Except.error ⟨some o, fallback⟩) :
    executeSqlFile execDriver filename contents =
      Except.error ("Error executing SQL file " ++ filename ++ ": " ++
        ("(" ++ o.modName ++ "." ++ o.clsName ++ ") " ++ o.message)) := by
  simp only [executeSqlFile, if_neg hne, hfail, errorText]

/-- Witness for C9 at a concrete failing input. -/
theorem execute_error_names_file_and_driver_witness :
    executeSqlFile
      (fun _ => Except.error
        ⟨some ⟨"psycopg2.errors", "SyntaxError", "syntax error at or near"⟩,
         "fallback"⟩)
      "schema.sql" "SELEC 1" =
    Except.error ("Error executing SQL file " ++ "schema.sql" ++ ": " ++
      ("(" ++ "psycopg2.errors" ++ "." ++ "SyntaxError" ++ ") " ++
        "syntax error at or near")) :=
  execute_error_names_file_and_driver
    (fun _ => Except.error
      ⟨some ⟨"psycopg2.errors", "SyntaxError", "syntax error at or near"⟩,
       "fallback"⟩)
    "schema.sql" "SELEC 1"
    ⟨"psycopg2.errors", "SyntaxError", "syntax error at or near"⟩
    "fallback" (by decide) rfl

/-- Claim C10: whenever `'all'` appears anywhere among the `check` backend
values — alone or alongside anything else — validation replaces the whole
list by `['migrations', 'schema', 'database']` with no length or membership
checks, and passing zero backend arguments is accepted, defaulting to
`['migrations', 'schema']` without a validation error. -/
theorem check_all_replaces_and_default (values : List String)
    (h : values.contains "all" = true) :
    validateBackends values =
      Except.ok ["migrations", "schema", "database"] ∧
    parseCheckBackends [] = Except.ok ["migrations", "schema"] := by
  refine ⟨?_, rfl⟩
  unfold validateBackends
  rw [h]
  rfl

/-- Witness for C10: `'all'` next to an otherwise invalid backend name still
replaces the whole list. -/
theorem check_all_replaces_and_default_witness :
    validateBackends ["bogus", "all"] =
      Except.ok ["migrations", "schema", "database"] ∧
    parseCheckBackends [] = Except.ok ["migrations", "schema"] :=
  check_all_replaces_and_default ["bogus", "all"] (by decide)

/-- Claim C1 (code bug): the same-backend guard in `main` tests
`hasattr(args, 'from')`, but argparse stores the diff positional under
`args.source` — `metavar='from'` affects help text only — so the guard is
false for every source/target combination.  In particular
`tusker diff schema schema` is not rejected: `parser.error` is never reached
and execution proceeds to `cmd_diff`, which creates both ephemeral
databases. -/
theorem diff_same_backend_guard_dead :
    (∀ source target : String,
      sameBackendGuard diffArgsAttrNames source target = false) ∧
    sameBackendGuard diffArgsAttrNames "schema" "schema" = false := by
  have hfrom : pyHasattr diffArgsAttrNames "from" = false := by decide
  exact ⟨fun s t => by simp [sameBackendGuard, hfrom], by decide⟩

end Tusker
